import Mathlib

/-!
Verification of the DSG dashboard credential-vault / tool-access broker
(python backend). The definitions below are a shallow embedding of the
relevant backend routes and services:

- routes/secure_access.py : one-time access tokens (request_tool_access,
  launch_tool, the in-memory access_tokens map)
- routes/gateway.py       : 30-minute gateway sessions (start / view / proxy)
- routes/ip_management.py : check_ip_allowed
- routes/tools.py         : update_tool
- services/tool_login_service.py : post-login success classification
- utils/security.py       : encrypt_credential / decrypt_credential

External collaborators (MongoDB, the Fernet construction of the
cryptography package, SHA-256, the secret manager) are modelled as
explicit parameters: the database is a lookup function, the token hash
is an arbitrary function argument, and Fernet is a structure carrying
the documented contract of the library. Python dictionaries keyed by
token hash are modelled as association lists. Time is a Nat counting
seconds. Python truthiness of optional strings is modelled explicitly.
-/

set_option autoImplicit false

namespace DsgBroker

/-- Seconds since an arbitrary epoch. -/
abbrev Time := Nat

/-! ### Association-list primitives (model of the in-memory python dicts) -/

/-- Lookup in an association list (python `d.get(k)`). -/
def lookupA {α : Type} (k : String) : List (String × α) → Option α
  | [] => none
  | (k', v) :: rest => if k' = k then some v else lookupA k rest

/-- Remove a key (python `del d[k]`). -/
def eraseA {α : Type} (k : String) (l : List (String × α)) : List (String × α) :=
  l.filter (fun p => p.1 ≠ k)

/-- Insert or overwrite a key (python `d[k] = v`). -/
def updateA {α : Type} (k : String) (v : α) (l : List (String × α)) : List (String × α) :=
  (k, v) :: eraseA k l

/-! ### Python string helpers -/

/-- `needle` occurs as a contiguous sublist of `hay`. -/
def listHasInfix (needle : List Char) : List Char → Bool
  | [] => needle.isEmpty
  | c :: t => needle.isPrefixOf (c :: t) || listHasInfix needle t

/-- Python `needle in haystack` on strings (substring containment). -/
def pyIn (needle hay : String) : Bool :=
  listHasInfix needle.data hay.data

/-- Python truthiness of an optional string: `None` and `""` are falsy. -/
def truthy : Option String → Bool
  | none => false
  | some s => s ≠ ""

/-- Python `a or b` where `a` is an optional string and `b` a string. -/
def pyOrStr (a : Option String) (b : String) : String :=
  match a with
  | none => b
  | some s => if s = "" then b else s

/-- Python `s.split("/")[0]`: the characters before the first slash. -/
def pySplitSlashHead (s : String) : String :=
  ⟨s.data.takeWhile (fun c => !(c == '/'))⟩

/-- Python `s.rsplit(".", 1)[0]`: everything before the last dot, or the
whole string when there is no dot. -/
def pyRsplitDotHead (s : String) : String :=
  if s.data.contains '.' then
    ⟨((s.data.reverse.dropWhile (fun c => !(c == '.'))).tail).reverse⟩
  else s

/-- Python `s.startswith(pre)`. -/
def pyStartsWith (s pre : String) : Bool :=
  pre.data.isPrefixOf s.data

/-- Splitting a character list at every occurrence of a separator
character (python `s.split(sep)` for a one-character separator). -/
def splitOnChar (sep : Char) : List Char → List (List Char)
  | [] => [[]]
  | c :: t =>
    let r := splitOnChar sep t
    if c = sep then [] :: r else (c :: r.headD []) :: r.tail

/-- The value of a non-empty all-digit character list read in decimal,
`none` otherwise. -/
def decDigits? (l : List Char) : Option Nat :=
  if l ≠ [] ∧ l.all Char.isDigit then
    some (l.foldl (fun a c => a * 10 + (c.toNat - 48)) 0)
  else none

/-- A 24-character lowercase-hex string, the strings accepted by
`bson.ObjectId`. -/
def isValidObjectId (s : String) : Bool :=
  s.length = 24 && s.data.all (fun c => c.isDigit || ("abcdef".data.contains c))

/-- ASCII lowercasing of one character (the fragment of python
`str.lower` relevant to URLs). -/
def lowerChar (c : Char) : Char :=
  if 65 ≤ c.toNat ∧ c.toNat ≤ 90 then Char.ofNat (c.toNat + 32) else c

/-- Python `s.lower()` restricted to ASCII letters. -/
def pyLower (s : String) : String := ⟨s.data.map lowerChar⟩

/-! ### Data model

Free-form MongoDB documents are modelled with `Option` fields exactly
where the python code reads them through `dict.get`. -/

/-- The `credentials` sub-document of a tool (`ToolCredentials` in
routes/tools.py; every field optional). -/
structure ToolCredentials where
  username : Option String
  password : Option String
  login_url : Option String
  notes : Option String
deriving DecidableEq

/-- A document of the `tools` collection as read by the broker routes. -/
structure Tool where
  name : Option String
  category : Option String
  description : Option String
  icon : Option String
  url : Option String
  login_url : Option String
  credentials : Option ToolCredentials
deriving DecidableEq

/-- A document of the `users` collection, restricted to the fields the
broker reads (allow-list and IP restriction data). -/
structure UserRecord where
  role : Option String
  allowed_tools : List String
  ip_restriction_enabled : Bool
  whitelisted_ips : List String
deriving DecidableEq

/-- The authenticated identity produced by `get_current_user`. -/
structure CurrentUser where
  id : String
  email : String
  name : Option String
  role : Option String
deriving DecidableEq

/-- The database collaborator: pure lookup functions by document id. -/
structure Db where
  tools : String → Option Tool
  users : String → Option UserRecord

/-- A `fastapi.HTTPException` (status code and detail). -/
structure HTTPErr where
  status : Nat
  detail : String
deriving DecidableEq

instance {ε α : Type} [DecidableEq ε] [DecidableEq α] : DecidableEq (Except ε α) := fun x y =>
  match x, y with
  | .error a, .error b =>
    match decEq a b with
    | isTrue h => isTrue (h ▸ rfl)
    | isFalse h => isFalse (fun hc => h (Except.error.inj hc))
  | .ok a, .ok b =>
    match decEq a b with
    | isTrue h => isTrue (h ▸ rfl)
    | isFalse h => isFalse (fun hc => h (Except.ok.inj hc))
  | .error _, .ok _ => isFalse (fun hc => Except.noConfusion hc)
  | .ok _, .error _ => isFalse (fun hc => Except.noConfusion hc)

/-- The allow-list consulted by the two issuance paths: the
`allowed_tools` of the requesting identity, `[]` when the user document
is missing. -/
def allowedToolsOf (db : Db) (current_user : CurrentUser) : List String :=
  match db.users current_user.id with
  | some u => u.allowed_tools
  | none => []

/-! ### routes/secure_access.py -/

/-- One entry of the module-level `access_tokens` dict
(secure_access.py lines 66-77). -/
structure TokenData where
  tool_id : String
  user_id : String
  user_email : String
  login_url : String
  tool_name : Option String
  tool_url : String
  has_credentials : Bool
  credentials : Option ToolCredentials
  expires_at : Time
  used : Bool
deriving DecidableEq

/-- The `access_tokens` dict, keyed by the sha256 hex digest of the
raw token. -/
abbrev TokenStore := List (String × TokenData)

/-- The JSON body returned by `request_tool_access`. -/
structure AccessResponse where
  access_token : String
  access_url : String
  tool_name : Option String
  has_auto_login : Bool
  login_url : String
  expires_in : Nat
deriving DecidableEq

/-- `POST /{tool_id}/request-access` (secure_access.py lines 24-98).

The token hash (`hashlib.sha256(...).hexdigest()`) is an arbitrary
function parameter `h`; the freshly generated `secrets.token_urlsafe`
value is the parameter `access_token`; `now` is the current time.
The activity-log insertion (AuditSink) has no effect on the returned
value or the token store and is omitted. -/
def request_tool_access (db : Db) (current_user : CurrentUser) (tool_id : String)
    (now : Time) (access_token : String) (h : String → String) (store : TokenStore) :
    Except HTTPErr AccessResponse × TokenStore :=
  if isValidObjectId tool_id = false then (.error ⟨400, "Invalid tool ID"⟩, store)
  else
    match db.tools tool_id with
    | none => (.error ⟨404, "Tool not found"⟩, store)
    | some tool =>
      if current_user.role ≠ some "Super Administrator" ∧
          isValidObjectId current_user.id = false then
        (.error ⟨500, "Internal Server Error"⟩, store)
      else
        let allowed_ok :=
          if current_user.role = some "Super Administrator" then true
          else decide (tool_id ∈ allowedToolsOf db current_user)
        if allowed_ok = false then
          (.error ⟨403, "You do not have access to this tool"⟩, store)
        else
          let credentials := tool.credentials.getD ⟨none, none, none, none⟩
          let login_url := pyOrStr credentials.login_url (tool.url.getD "#")
          if login_url = "" ∨ login_url = "#" then
            (.error ⟨400, "Tool URL not configured"⟩, store)
          else
            let has_credentials := truthy credentials.username && truthy credentials.password
            let td : TokenData :=
              { tool_id := tool_id
                user_id := current_user.id
                user_email := current_user.email
                login_url := login_url
                tool_name := tool.name
                tool_url := tool.url.getD "#"
                has_credentials := has_credentials
                credentials := if has_credentials then some credentials else none
                expires_at := now + 300
                used := false }
            (.ok { access_token := access_token
                   access_url := "/api/secure-access/launch/" ++ access_token
                   tool_name := tool.name
                   has_auto_login := has_credentials
                   login_url := login_url
                   expires_in := 300 },
             updateA (h access_token) td store)

/-- The response of `GET /launch/{access_token}`: one of the three 403
error pages, a plain redirect to the login URL (manual navigation), or
the credential-display HTML page (the delivery artifact). -/
inductive LaunchResult where
  | invalidPage
  | expiredPage
  | alreadyUsedPage
  | redirect (url : String)
  | credentialPage (username password login_url : String) (tool_name : Option String)
deriving DecidableEq

/-- `GET /launch/{access_token}` (secure_access.py lines 101-472),
returning the response together with the updated `access_tokens` dict. -/
def launch_tool (h : String → String) (store : TokenStore) (now : Time)
    (access_token : String) : LaunchResult × TokenStore :=
  let key := h access_token
  match lookupA key store with
  | none => (.invalidPage, store)
  | some td =>
    if td.expires_at < now then (.expiredPage, eraseA key store)
    else if td.used then (.alreadyUsedPage, store)
    else
      let store' := updateA key { td with used := true } store
      match td.credentials with
      | none => (.redirect td.login_url, store')
      | some c =>
        if truthy c.username = false then (.redirect td.login_url, store')
        else
          (.credentialPage (c.username.getD "") (c.password.getD "")
            td.login_url td.tool_name, store')

/-- The launch outcomes that deliver access (the non-error responses). -/
def LaunchResult.isArtifact : LaunchResult → Bool
  | .redirect _ => true
  | .credentialPage _ _ _ _ => true
  | _ => false

/-! ### utils/tool_mapping.py -/

/-- The `TOOL_NAME_MAPPING` dict. -/
def TOOL_NAME_MAPPING : List (String × String) :=
  [("rmis", "rmis"), ("risk management", "rmis"),
   ("truckstop", "truckstop"), ("truckstopcom", "truckstop"), ("truck stop", "truckstop"),
   ("saferwatch", "saferwatch"), ("safer watch", "saferwatch"),
   ("billcom", "billcom"), ("bill com", "billcom"),
   ("mcp", "mcp"), ("management control panel", "mcp"),
   ("zoho assist", "zoho-assist"), ("zoho", "zoho-assist")]

/-- `normalize_tool_name` (utils/tool_mapping.py). The two dict keys that
contain a dot in the python source ("truckstop.com", "bill.com") are
unreachable there, because the lookup argument has its dots removed
first; they are stored dot-free here, which gives the same lookup
results. -/
def normalize_tool_name (tool_name : String) : String :=
  if tool_name = "" then ""
  else
    let normalized :=
      (((pyLower tool_name).trim).replace "." "").replace "_" " "
    match lookupA normalized TOOL_NAME_MAPPING with
    | some v => v
    | none =>
      match lookupA (normalized.replace " " "") TOOL_NAME_MAPPING with
      | some v => v
      | none =>
        let safe_name := normalized.replace " " "-"
        ⟨safe_name.data.filter (fun c => c.isAlphanum || c == '-')⟩

/-! ### routes/gateway.py -/

/-- One entry of the module-level `gateway_sessions` dict
(gateway.py lines 77-89). -/
structure GatewaySession where
  tool_id : String
  tool_name : Option String
  base_url : String
  credentials : ToolCredentials
  user_id : String
  user_email : String
  cookies : List (String × String)
  logged_in : Bool
  created_at : Time
  expires_at : Time
  last_access : Time
deriving DecidableEq

/-- The `gateway_sessions` dict, keyed by the sha256 hex digest of the
session token. -/
abbrev GatewayStore := List (String × GatewaySession)

/-- `SESSION_TIMEOUT = timedelta(minutes=30)`, in seconds. -/
def SESSION_TIMEOUT : Time := 1800

/-- The JSON body returned by `start_gateway_session`. -/
structure StartSessionResponse where
  session_token : String
  gateway_url : String
  tool_name : Option String
  expires_in : Nat
deriving DecidableEq

/-- `POST /start/{tool_id}` (gateway.py lines 31-107). `sm` is the
external secret-manager collaborator (`get_tool_credentials`, `none`
when it raises). The `raise HTTPException(400, "Tool URL not
configured")` of line 63 sits inside the `try` block and is caught by
the generic `except`, so a missing URL surfaces as the 500 error. -/
def start_gateway_session (db : Db) (sm : String → Option ToolCredentials)
    (current_user : CurrentUser) (tool_id : String) (now : Time)
    (session_token : String) (h : String → String) (store : GatewayStore) :
    Except HTTPErr StartSessionResponse × GatewayStore :=
  if isValidObjectId tool_id = false then (.error ⟨400, "Invalid tool ID"⟩, store)
  else
    match db.tools tool_id with
    | none => (.error ⟨404, "Tool not found"⟩, store)
    | some tool =>
      if current_user.role ≠ some "Super Administrator" ∧
          isValidObjectId current_user.id = false then
        (.error ⟨500, "Internal Server Error"⟩, store)
      else
        let allowed_ok :=
          if current_user.role = some "Super Administrator" then true
          else decide (tool_id ∈ allowedToolsOf db current_user)
        if allowed_ok = false then (.error ⟨403, "Access denied"⟩, store)
        else
          match sm (normalize_tool_name (tool.name.getD "")) with
          | none => (.error ⟨500, "Failed to retrieve credentials"⟩, store)
          | some creds =>
            let base_url := pyOrStr tool.url (tool.login_url.getD "")
            if base_url = "" then
              (.error ⟨500, "Failed to retrieve credentials"⟩, store)
            else
              let s : GatewaySession :=
                { tool_id := tool_id
                  tool_name := tool.name
                  base_url := base_url
                  credentials := { creds with login_url := some base_url }
                  user_id := current_user.id
                  user_email := current_user.email
                  cookies := []
                  logged_in := false
                  created_at := now
                  expires_at := now + SESSION_TIMEOUT
                  last_access := now }
              (.ok { session_token := session_token
                     gateway_url := "/api/gateway/view/" ++ session_token
                     tool_name := tool.name
                     expires_in := SESSION_TIMEOUT },
               updateA (h session_token) s store)

/-- The response of `GET /view/{session_token}`. -/
inductive ViewResult where
  | notFoundPage
  | expiredPage
  | credsErrorPage
  | gatewayPage (tool_name base_url : String)
deriving DecidableEq

/-- `GET /view/{session_token}` (gateway.py lines 110-459): session
validation, lazy expiry eviction, last-access touch, then the
credential-copy HTML page built from a fresh secret-manager read. -/
def view_tool_gateway (sm : String → Option ToolCredentials) (h : String → String)
    (store : GatewayStore) (now : Time) (session_token : String) :
    ViewResult × GatewayStore :=
  let key := h session_token
  match lookupA key store with
  | none => (.notFoundPage, store)
  | some s =>
    if s.expires_at < now then (.expiredPage, eraseA key store)
    else
      let store' := updateA key { s with last_access := now } store
      match sm (normalize_tool_name (s.tool_name.getD "")) with
      | none => (.credsErrorPage, store')
      | some _ => (.gatewayPage (s.tool_name.getD "") s.base_url, store')

/-- The response of `GET|POST /proxy/{session_token}/{path}` up to the
outbound request: either the 403 session-expired page, or the proxied
fetch of `urljoin(base_url, path)` (the network exchange and the
HTML/cookie rewriting that follow are external I/O). -/
inductive ProxyResult where
  | expiredPage
  | upstream (base_url path : String)
deriving DecidableEq

/-- `proxy_tool_request` (gateway.py lines 462-541), session-validation
part: lookup by token hash, lazy expiry eviction, last-access touch. -/
def proxy_tool_request (h : String → String) (store : GatewayStore) (now : Time)
    (session_token : String) (path : String) : ProxyResult × GatewayStore :=
  let key := h session_token
  match lookupA key store with
  | none => (.expiredPage, store)
  | some s =>
    if s.expires_at < now then (.expiredPage, eraseA key store)
    else
      let store' := updateA key { s with last_access := now } store
      (.upstream s.base_url path, store')

/-- A proxy outcome that reached the upstream fetch (not the 403
session-expired page). -/
def ProxyResult.isServed : ProxyResult → Bool
  | .upstream _ _ => true
  | .expiredPage => false

/-- A sequence of proxied requests, each a (time, path) pair, run
against the session store in order. -/
def proxySeq (h : String → String) (store : GatewayStore) (token : String) :
    List (Time × String) → List ProxyResult × GatewayStore
  | [] => ([], store)
  | (t, p) :: rest =>
    let step := proxy_tool_request h store t token p
    let next := proxySeq h step.2 token rest
    (step.1 :: next.1, next.2)

/-! ### services/tool_login_service.py -/

/-- The classification of a finished login attempt. `failed` is the
`success: False, error: "Login failed - please verify credentials"`
return; `ok` is the `success: True` return that carries the captured
cookie jar onward. -/
inductive LoginOutcome where
  | failed (final_url : String)
  | ok (final_url : String)
deriving DecidableEq

/-- The post-login success check of `server_login_to_tool`
(tool_login_service.py lines 154-167): the attempt is a failure exactly
when `'login' in final_url.lower() and login_url in final_url`. The
browser-driving part of the function is external I/O that produces
`final_url`. -/
def server_login_outcome (login_url final_url : String) : LoginOutcome :=
  if pyIn "login" (pyLower final_url) && pyIn login_url final_url then
    .failed final_url
  else .ok final_url

/-- Drops characters up to and past the first occurrence of `sep`
(meaningful when an occurrence exists). -/
def afterSepChars (sep : List Char) : List Char → List Char
  | [] => []
  | c :: t => if sep.isPrefixOf (c :: t) then (c :: t).drop sep.length else afterSepChars sep t

/-- The host component of a URL: what stands between `://` and the next
`/`, `?` or `#`. Used to state the spec side of claim C4. -/
def specHost (u : String) : String :=
  let rest :=
    if listHasInfix "://".data u.data then afterSepChars "://".data u.data else u.data
  ⟨rest.takeWhile (fun c => !(c == '/' || c == '?' || c == '#'))⟩

/-- The path-and-after component of a URL (everything from the first
`/`, `?` or `#` past the host). Used to state the spec side of claim C4. -/
def specPath (u : String) : String :=
  let rest :=
    if listHasInfix "://".data u.data then afterSepChars "://".data u.data else u.data
  ⟨rest.dropWhile (fun c => !(c == '/' || c == '?' || c == '#'))⟩

/-- The login-page heuristic as the spec words it (section 4.4): the
path contains "login", "signin" or "auth". -/
def specLoginPageHeuristic (p : String) : Bool :=
  pyIn "login" (pyLower p) || pyIn "signin" (pyLower p) || pyIn "auth" (pyLower p)

/-! ### routes/ip_management.py -/

/-- A document of the `ip_whitelist` collection. -/
structure IpWhitelistEntry where
  ip : String
  description : String
  status : String
deriving DecidableEq

/-- Python `entry.split("/")[0].rsplit(".", 1)[0]` (ip_management.py
line 270): the base address of a whitelist entry minus its last
dot-separated component. -/
def cidrNetworkStr (entry : String) : String :=
  pyRsplitDotHead (pySplitSlashHead entry)

/-- `check_ip_allowed` (ip_management.py lines 246-274). The
`db.ip_whitelist.find_one({"ip": client_ip, "status": "Active"})` call
is the membership test over the supplied global whitelist. -/
def check_ip_allowed (user : UserRecord) (client_ip : String)
    (ip_whitelist : List IpWhitelistEntry) : Bool :=
  if user.role = some "Super Administrator" then true
  else if user.ip_restriction_enabled = false then true
  else if client_ip ∈ user.whitelisted_ips then true
  else if ip_whitelist.any (fun e => e.ip = client_ip && e.status = "Active") then true
  else
    user.whitelisted_ips.any (fun entry =>
      pyIn "/" entry && pyStartsWith client_ip (cidrNetworkStr entry))

/-- A dotted-quad IPv4 address as a number, `none` when the string is
not one. Used to state the spec side of claim C5. -/
def ipv4ToNat (s : String) : Option Nat :=
  match (splitOnChar '.' s.data).mapM decDigits? with
  | some [a, b, c, d] =>
    if a ≤ 255 ∧ b ≤ 255 ∧ c ≤ 255 ∧ d ≤ 255 then
      some (((a * 256 + b) * 256 + c) * 256 + d)
    else none
  | _ => none

/-- True CIDR membership, as the spec words it ("falls within a CIDR
range assigned to the subject"): the client address agrees with the
entry base address on the first `n` bits of `base/n`. Used to state the
spec side of claim C5. -/
def specInCidr (client entry : String) : Bool :=
  match splitOnChar '/' entry.data with
  | [base, plen] =>
    match ipv4ToNat ⟨base⟩, decDigits? plen, ipv4ToNat client with
    | some b, some n, some ip =>
      n ≤ 32 && decide (ip / 2 ^ (32 - n) = b / 2 ^ (32 - n))
    | _, _, _ => false
  | _ => false

/-! ### routes/tools.py -/

/-- The `ToolCreateWithCredentials` request body (defaults already
applied by pydantic). -/
structure ToolUpdatePayload where
  name : String
  category : String
  description : String
  icon : String
  url : String
  credentials : Option ToolCredentials
deriving DecidableEq

/-- The JSON body returned by `update_tool`. -/
structure ToolUpdateResponse where
  id : String
  name : String
  category : String
  description : String
  icon : String
  url : String
  has_credentials : Bool
  credentials : Option ToolCredentials
deriving DecidableEq

/-- The `tools` collection as a lookup by document id. -/
abbrev ToolsDb := String → Option Tool

/-- `PUT /{tool_id}` (tools.py lines 121-171). The `$set` update writes
name, category, description, icon and url always, and credentials only
when the payload carries a credentials object (a pydantic instance is
truthy whenever it is not `None`). Fields outside the `$set` document
keep their stored values. -/
def update_tool (tools : ToolsDb) (current_user : CurrentUser) (tool_id : String)
    (payload : ToolUpdatePayload) : Except HTTPErr ToolUpdateResponse × ToolsDb :=
  if current_user.role ≠ some "Super Administrator" then
    (.error ⟨403, "Only Super Administrator can update tools"⟩, tools)
  else if isValidObjectId tool_id = false then
    (.error ⟨400, "Invalid tool ID"⟩, tools)
  else
    match tools tool_id with
    | none => (.error ⟨404, "Tool not found"⟩, tools)
    | some tool =>
      let updated : Tool :=
        { tool with
          name := some payload.name
          category := some payload.category
          description := some payload.description
          icon := some payload.icon
          url := some payload.url
          credentials :=
            match payload.credentials with
            | some c => some c
            | none => tool.credentials }
      (.ok { id := tool_id
             name := payload.name
             category := payload.category
             description := payload.description
             icon := payload.icon
             url := payload.url
             has_credentials := payload.credentials.isSome
             credentials := payload.credentials },
       fun k => if k = tool_id then some updated else tools k)

/-! ### The extension-payload decrypt endpoint -/

/-- The decrypted content of a short-lived extension payload. -/
structure ExtensionPayload where
  username : String
  password : String
  expires_at : Time
deriving DecidableEq

/-- The JSON body of a decrypt response: `success: False` with an
origin error, `success: False` with a decryption error, or
`success: True` with the plaintext `u`/`p` fields. -/
inductive DecryptResult where
  | originNotAllowed
  | decryptionFailed
  | ok (username password : String)
deriving DecidableEq

/-- The declared `Origin` header starts with one of the trusted origin
patterns (e.g. `chrome-extension://`). -/
def originAllowed (trusted : List String) (origin : Option String) : Bool :=
  match origin with
  | none => false
  | some o => trusted.any (fun t => pyStartsWith o t)

/-- Modelled from the spec: the `POST /api/secure-access/decrypt-payload`
endpoint is absent from src/ (only backend/tests/test_security.py
exercises it), so it is modelled from spec section 4.4: the endpoint
validates the declared origin against the trusted allow-list before
attempting decryption, treats expired payloads as decryption failures,
and only then returns the plaintext. -/
def decrypt_payload (trusted : List String) (origin : Option String)
    (payload : ExtensionPayload) (now : Time) : DecryptResult :=
  if originAllowed trusted origin = false then .originNotAllowed
  else if payload.expires_at < now then .decryptionFailed
  else .ok payload.username payload.password

/-! ### utils/security.py

`encrypt_credential` is `fernet.encrypt(credential.encode()).decode()`
and `decrypt_credential` is the reverse. Python strings are modelled as
their code-point sequences, `str.encode`/`bytes.decode` as an explicit
UTF-8 codec, and the Fernet object of the external cryptography
package as a structure carrying its documented contract (decrypt
inverts encrypt on byte strings; tokens are base64url ASCII text). -/

/-- A python `str` as its sequence of code points. -/
abbrev PyStr := List Nat

/-- A code point accepted by python `str.encode()` (a Unicode scalar
value: below 0x110000 and not a lone surrogate). -/
def validCodePoint (c : Nat) : Prop :=
  c < 0xD800 ∨ (0xE000 ≤ c ∧ c < 0x110000)

instance (c : Nat) : Decidable (validCodePoint c) := by
  unfold validCodePoint; infer_instance

/-- UTF-8 encoding of one code point. -/
def utf8EncodeChar (c : Nat) : List Nat :=
  if c < 0x80 then [c]
  else if c < 0x800 then [0xC0 + c / 64, 0x80 + c % 64]
  else if c < 0x10000 then [0xE0 + c / 4096, 0x80 + c / 64 % 64, 0x80 + c % 64]
  else [0xF0 + c / 262144, 0x80 + c / 4096 % 64, 0x80 + c / 64 % 64, 0x80 + c % 64]

/-- Python `s.encode()`. -/
def utf8Encode (s : PyStr) : List Nat := s.flatMap utf8EncodeChar

/-- A UTF-8 continuation byte. -/
def isContByte (b : Nat) : Bool := 0x80 ≤ b && b < 0xC0

/-- The UTF-8 decoding loop: `pending` continuation bytes are still
expected for a code point partially assembled in `acc`. -/
def utf8DecAux : Nat → Nat → List Nat → Option PyStr
  | 0, _, [] => some []
  | _ + 1, _, [] => none
  | 0, _, b :: rest =>
    if b < 0x80 then (utf8DecAux 0 0 rest).map (b :: ·)
    else if b < 0xC0 then none
    else if b < 0xE0 then utf8DecAux 1 (b - 0xC0) rest
    else if b < 0xF0 then utf8DecAux 2 (b - 0xE0) rest
    else if b < 0xF8 then utf8DecAux 3 (b - 0xF0) rest
    else none
  | pending + 1, acc, b :: rest =>
    if isContByte b then
      if pending = 0 then (utf8DecAux 0 0 rest).map ((acc * 64 + (b - 0x80)) :: ·)
      else utf8DecAux pending (acc * 64 + (b - 0x80)) rest
    else none

/-- Python `bytes.decode()`: UTF-8 decoding, `none` on malformed input
(the python call raises there). -/
def utf8Decode (l : List Nat) : Option PyStr := utf8DecAux 0 0 l

/-- The Fernet object obtained from `get_fernet()`, modelled by the
documented contract of the external cryptography package: decryption
inverts encryption on every byte string, and emitted tokens are ASCII
(base64url text). -/
structure FernetLike where
  enc : List Nat → List Nat
  dec : List Nat → Option (List Nat)
  dec_enc : ∀ b, dec (enc b) = some b
  enc_ascii : ∀ b, ∀ t ∈ enc b, t < 128

/-- `encrypt_credential` (utils/security.py lines 83-84):
`get_fernet().encrypt(credential.encode()).decode()`. -/
def encrypt_credential (F : FernetLike) (credential : PyStr) : Option PyStr :=
  utf8Decode (F.enc (utf8Encode credential))

/-- `decrypt_credential` (utils/security.py lines 86-87):
`get_fernet().decrypt(encrypted_credential.encode()).decode()`. -/
def decrypt_credential (F : FernetLike) (encrypted_credential : PyStr) : Option PyStr :=
  (F.dec (utf8Encode encrypted_credential)).bind utf8Decode

/-! ### A concrete cipher satisfying the Fernet contract

Used to instantiate `FernetLike` in witnesses: each byte becomes a run
of ASCII ones terminated by an ASCII zero. -/

/-- Unary encoding of a byte list into digit characters. -/
def unaryEnc (b : List Nat) : List Nat :=
  b.flatMap (fun t => List.replicate t 49 ++ [48])

/-- Decoder for `unaryEnc`; `acc` counts the ones read so far. -/
def unaryDecGo : List Nat → Nat → Option (List Nat)
  | [], acc => if acc = 0 then some [] else none
  | b :: rest, acc =>
    if b = 48 then (unaryDecGo rest 0).map (acc :: ·)
    else if b = 49 then unaryDecGo rest (acc + 1)
    else none

/-- The unary cipher packaged with its contract proofs. -/
def unaryFernet : FernetLike where
  enc := unaryEnc
  dec := fun l => unaryDecGo l 0
  dec_enc := by
    have rep : ∀ (t : Nat) (rest : List Nat) (acc : Nat),
        unaryDecGo (List.replicate t 49 ++ 48 :: rest) acc =
          (unaryDecGo rest 0).map ((acc + t) :: ·) := by
      intro t
      induction t with
      | zero =>
        intro rest acc
        simp only [List.replicate, List.nil_append]
        rw [unaryDecGo, if_pos rfl, Nat.add_zero]
      | succ n ih =>
        intro rest acc
        simp only [List.replicate, List.cons_append]
        rw [unaryDecGo, if_neg (by omega), if_pos rfl, ih]
        have e : acc + 1 + n = acc + (n + 1) := by omega
        rw [e]
    intro b
    induction b with
    | nil => rfl
    | cons t ts ih =>
      have e : unaryEnc (t :: ts) = List.replicate t 49 ++ 48 :: unaryEnc ts := by
        simp [unaryEnc]
      have ih' : unaryDecGo (unaryEnc ts) 0 = some ts := ih
      show unaryDecGo (unaryEnc (t :: ts)) 0 = some (t :: ts)
      rw [e, rep, ih']
      simp
  enc_ascii := by
    intro b x hx
    simp only [unaryEnc, List.mem_flatMap] at hx
    obtain ⟨t, -, hmem⟩ := hx
    rcases List.mem_append.mp hmem with hm | hm
    · rw [List.eq_of_mem_replicate hm]
      omega
    · simp only [List.mem_singleton] at hm
      omega

/-! ### Concrete sample data for witnesses -/

/-- A configured credential record. -/
def sampleCreds : ToolCredentials :=
  { username := some "user"
    password := some "pw"
    login_url := some "https://tool.example/login"
    notes := none }

/-- A credential record with an empty password (no auto-login). -/
def sampleCredsNoPw : ToolCredentials :=
  { username := some "user"
    password := some ""
    login_url := some "https://tool.example/login"
    notes := none }

/-- A fresh one-time token entry expiring at time 1000. -/
def sampleTokenData : TokenData :=
  { tool_id := "5f0000000000000000000001"
    user_id := "5f0000000000000000000002"
    user_email := "user@example.com"
    login_url := "https://tool.example/login"
    tool_name := some "Tool"
    tool_url := "https://tool.example"
    has_credentials := true
    credentials := some sampleCreds
    expires_at := 1000
    used := false }

/-- A tool document with configured credentials. -/
def sampleTool : Tool :=
  { name := some "Tool"
    category := some "Ops"
    description := some "A tool"
    icon := some "Globe"
    url := some "https://tool.example"
    login_url := none
    credentials := some sampleCreds }

/-- A tool document whose credential record has an empty password. -/
def sampleToolNoPw : Tool :=
  { sampleTool with credentials := some sampleCredsNoPw }

/-- A non-admin user allowed only tool T1. -/
def sampleUser : UserRecord :=
  { role := some "User"
    allowed_tools := ["5f0000000000000000000001"]
    ip_restriction_enabled := true
    whitelisted_ips := ["10.0.0.0/16"] }

/-- A database with the sample tool under id `...01` and the sample
user under id `...02`. -/
def sampleDb : Db :=
  { tools := fun k =>
      if k = "5f0000000000000000000001" then some sampleTool
      else if k = "5f0000000000000000000003" then some sampleTool
      else none
    users := fun k => if k = "5f0000000000000000000002" then some sampleUser else none }

/-- The authenticated identity of the sample user (no bypass role). -/
def sampleCurrentUser : CurrentUser :=
  { id := "5f0000000000000000000002"
    email := "user@example.com"
    name := some "User"
    role := some "User" }

/-- The sample identity with the bypass role. -/
def sampleSuperUser : CurrentUser :=
  { sampleCurrentUser with role := some "Super Administrator" }

/-- The sample token entry already consumed. -/
def sampleTokenDataUsed : TokenData :=
  { sampleTokenData with used := true }

/-- The sample database with the no-password tool under id ...01. -/
def sampleDbNoPw : Db :=
  { tools := fun k => if k = "5f0000000000000000000001" then some sampleToolNoPw else none
    users := fun k => if k = "5f0000000000000000000002" then some sampleUser else none }

/-- A gateway session created at time 0 (expires at 1800). -/
def sampleSession : GatewaySession :=
  { tool_id := "5f0000000000000000000001"
    tool_name := some "Tool"
    base_url := "https://tool.example"
    credentials := { sampleCreds with login_url := some "https://tool.example" }
    user_id := "5f0000000000000000000002"
    user_email := "user@example.com"
    cookies := []
    logged_in := false
    created_at := 0
    expires_at := 1800
    last_access := 0 }

/-! ## Library lemmas -/

@[simp] theorem lookupA_nil {α : Type} (k : String) : lookupA (α := α) k [] = none := rfl

@[simp] theorem lookupA_cons {α : Type} (k k' : String) (v : α) (l : List (String × α)) :
    lookupA k ((k', v) :: l) = if k' = k then some v else lookupA k l := rfl

theorem lookupA_eraseA_self {α : Type} (k : String) (l : List (String × α)) :
    lookupA k (eraseA k l) = none := by
  induction l with
  | nil => rfl
  | cons p rest ih =>
    obtain ⟨k', v⟩ := p
    by_cases h : k' = k
    · simpa [eraseA, List.filter_cons, h] using ih
    · simpa [eraseA, List.filter_cons, h, lookupA] using ih

theorem lookupA_updateA_self {α : Type} (k : String) (v : α) (l : List (String × α)) :
    lookupA k (updateA k v l) = some v := by
  simp [updateA, lookupA]

/-! ### UTF-8 codec lemmas -/

theorem utf8DecAux_encodeChar (c : Nat) (hc : c < 0x110000) (rest : List Nat) :
    utf8DecAux 0 0 (utf8EncodeChar c ++ rest) = (utf8DecAux 0 0 rest).map (c :: ·) := by
  by_cases h1 : c < 0x80
  · have e : utf8EncodeChar c = [c] := by unfold utf8EncodeChar; rw [if_pos h1]
    rw [e]
    show utf8DecAux 0 0 (c :: rest) = _
    rw [utf8DecAux, if_pos h1]
  · by_cases h2 : c < 0x800
    · have e : utf8EncodeChar c = [0xC0 + c / 64, 0x80 + c % 64] := by
        unfold utf8EncodeChar; rw [if_neg h1, if_pos h2]
      rw [e]
      show utf8DecAux 0 0 (_ :: _ :: rest) = _
      rw [utf8DecAux, if_neg (by omega), if_neg (by omega), if_pos (by omega),
        show (1 : Nat) = 0 + 1 from rfl, utf8DecAux]
      have hcont : isContByte (0x80 + c % 64) = true := by
        unfold isContByte
        simp only [Bool.and_eq_true, decide_eq_true_eq]
        omega
      rw [hcont, if_pos rfl]
      simp only [if_true]
      have : (0xC0 + c / 64 - 0xC0) * 64 + (0x80 + c % 64 - 0x80) = c := by omega
      rw [this]
    · by_cases h3 : c < 0x10000
      · have e : utf8EncodeChar c = [0xE0 + c / 4096, 0x80 + c / 64 % 64, 0x80 + c % 64] := by
          unfold utf8EncodeChar; rw [if_neg h1, if_neg h2, if_pos h3]
        rw [e]
        show utf8DecAux 0 0 (_ :: _ :: _ :: rest) = _
        rw [utf8DecAux, if_neg (by omega), if_neg (by omega), if_neg (by omega),
          if_pos (by omega), show (2 : Nat) = 1 + 1 from rfl, utf8DecAux]
        have hcont1 : isContByte (0x80 + c / 64 % 64) = true := by
          unfold isContByte
          simp only [Bool.and_eq_true, decide_eq_true_eq]
          omega
        rw [hcont1, if_pos rfl, if_neg (by omega), show (1 : Nat) = 0 + 1 from rfl, utf8DecAux]
        have hcont2 : isContByte (0x80 + c % 64) = true := by
          unfold isContByte
          simp only [Bool.and_eq_true, decide_eq_true_eq]
          omega
        rw [hcont2, if_pos rfl]
        simp only [if_true]
        have : ((0xE0 + c / 4096 - 0xE0) * 64 + (0x80 + c / 64 % 64 - 0x80)) * 64 +
            (0x80 + c % 64 - 0x80) = c := by omega
        rw [this]
      · have e : utf8EncodeChar c =
            [0xF0 + c / 262144, 0x80 + c / 4096 % 64, 0x80 + c / 64 % 64, 0x80 + c % 64] := by
          unfold utf8EncodeChar; rw [if_neg h1, if_neg h2, if_neg h3]
        rw [e]
        show utf8DecAux 0 0 (_ :: _ :: _ :: _ :: rest) = _
        rw [utf8DecAux, if_neg (by omega), if_neg (by omega), if_neg (by omega),
          if_neg (by omega), if_pos (by omega), show (3 : Nat) = 2 + 1 from rfl, utf8DecAux]
        have hcont1 : isContByte (0x80 + c / 4096 % 64) = true := by
          unfold isContByte
          simp only [Bool.and_eq_true, decide_eq_true_eq]
          omega
        rw [hcont1, if_pos rfl, if_neg (by omega), show (2 : Nat) = 1 + 1 from rfl, utf8DecAux]
        have hcont2 : isContByte (0x80 + c / 64 % 64) = true := by
          unfold isContByte
          simp only [Bool.and_eq_true, decide_eq_true_eq]
          omega
        rw [hcont2, if_pos rfl, if_neg (by omega), show (1 : Nat) = 0 + 1 from rfl, utf8DecAux]
        have hcont3 : isContByte (0x80 + c % 64) = true := by
          unfold isContByte
          simp only [Bool.and_eq_true, decide_eq_true_eq]
          omega
        rw [hcont3, if_pos rfl]
        simp only [if_true]
        have : (((0xF0 + c / 262144 - 0xF0) * 64 + (0x80 + c / 4096 % 64 - 0x80)) * 64 +
            (0x80 + c / 64 % 64 - 0x80)) * 64 + (0x80 + c % 64 - 0x80) = c := by omega
        rw [this]

theorem utf8Decode_utf8Encode (s : PyStr) (h : ∀ c ∈ s, c < 0x110000) :
    utf8Decode (utf8Encode s) = some s := by
  induction s with
  | nil => rfl
  | cons c cs ih =>
    have e : utf8Encode (c :: cs) = utf8EncodeChar c ++ utf8Encode cs := by
      simp [utf8Encode]
    show utf8DecAux 0 0 (utf8Encode (c :: cs)) = some (c :: cs)
    rw [e, utf8DecAux_encodeChar c (h c (by simp)) (utf8Encode cs)]
    show (utf8Decode (utf8Encode cs)).map (c :: ·) = _
    rw [ih (fun x hx => h x (by simp [hx]))]
    rfl

theorem utf8Encode_ascii (t : List Nat) (h : ∀ b ∈ t, b < 128) :
    utf8Encode t = t := by
  induction t with
  | nil => rfl
  | cons b bs ih =>
    have e : utf8EncodeChar b = [b] := by
      unfold utf8EncodeChar; rw [if_pos (h b (by simp))]
    simp only [utf8Encode, List.flatMap_cons] at *
    rw [e, ih (fun x hx => h x (by simp [hx]))]
    rfl

theorem utf8Decode_ascii (t : List Nat) (h : ∀ b ∈ t, b < 128) :
    utf8Decode t = some t := by
  induction t with
  | nil => rfl
  | cons b bs ih =>
    show utf8DecAux 0 0 (b :: bs) = some (b :: bs)
    rw [utf8DecAux, if_pos (h b (by simp))]
    show (utf8Decode bs).map (b :: ·) = _
    rw [ih (fun x hx => h x (by simp [hx]))]
    rfl


/-! ## Claim theorems -/

/-- Claim C1: consuming a one-time access token succeeds at most once.
A fresh (unexpired, unused) grant yields the delivery artifact and is
marked used; any second consumption of the same token within the grant
lifetime returns the 403 already-used page; and no second consumption,
at any time, yields the artifact again. -/
theorem claim_C1_one_time_consume (h : String → String) (store : TokenStore)
    (token : String) (td : TokenData) (now1 : Time)
    (hlook : lookupA (h token) store = some td)
    (hexp : ¬ td.expires_at < now1) (hused : td.used = false) :
    (launch_tool h store now1 token).1.isArtifact = true ∧
    lookupA (h token) (launch_tool h store now1 token).2 = some { td with used := true } ∧
    (∀ now2 : Time, ¬ td.expires_at < now2 →
      (launch_tool h (launch_tool h store now1 token).2 now2 token).1 =
        LaunchResult.alreadyUsedPage) ∧
    (∀ now2 : Time,
      (launch_tool h (launch_tool h store now1 token).2 now2 token).1.isArtifact = false) := by
  have step1 : (launch_tool h store now1 token).1.isArtifact = true ∧
      (launch_tool h store now1 token).2 =
        updateA (h token) { td with used := true } store := by
    unfold launch_tool
    simp only [hlook]
    simp only [if_neg hexp, hused, Bool.false_eq_true, if_neg (by simp : ¬ False)]
    rcases td.credentials with _ | c
    · simp [LaunchResult.isArtifact]
    · by_cases ht : truthy c.username
      · simp [ht, LaunchResult.isArtifact]
      · simp [ht, LaunchResult.isArtifact]
  have hlook2 : lookupA (h token) (launch_tool h store now1 token).2 =
      some { td with used := true } := by
    rw [step1.2]
    exact lookupA_updateA_self _ _ _
  have hl2 : lookupA (h token) (updateA (h token) { td with used := true } store) =
      some { td with used := true } := lookupA_updateA_self _ _ _
  refine ⟨step1.1, hlook2, ?_, ?_⟩
  · intro now2 hexp2
    rw [step1.2]
    unfold launch_tool
    simp only [hl2]
    rw [if_neg (by simpa using hexp2)]
    simp
  · intro now2
    rw [step1.2]
    unfold launch_tool
    simp only [hl2]
    by_cases hlt : td.expires_at < now2
    · rw [if_pos (by simpa using hlt)]
      rfl
    · rw [if_neg (by simpa using hlt)]
      simp [LaunchResult.isArtifact]

/-- Witness for C1: a fresh grant consumed at time 10 yields the
artifact; the same token consumed again at time 20 hits the 403
already-used page. -/
theorem claim_C1_one_time_consume_witness :
    (launch_tool id [("tok", sampleTokenData)] 10 "tok").1.isArtifact = true ∧
    (launch_tool id (launch_tool id [("tok", sampleTokenData)] 10 "tok").2 20 "tok").1 =
      LaunchResult.alreadyUsedPage :=
  ⟨(claim_C1_one_time_consume id [("tok", sampleTokenData)] "tok" sampleTokenData 10
      (by decide) (by decide) (by decide)).1,
   (claim_C1_one_time_consume id [("tok", sampleTokenData)] "tok" sampleTokenData 10
      (by decide) (by decide) (by decide)).2.2.1 20 (by decide)⟩

/-- Claim C3: consuming any token after its expiry returns the expired
page regardless of the used flag, deletes the entry from the token
store at that lookup, and every later consumption of the same token
returns the invalid page, never success. -/
theorem claim_C3_expiry_precedes_used (h : String → String) (store : TokenStore)
    (token : String) (td : TokenData) (now1 : Time)
    (hlook : lookupA (h token) store = some td)
    (hexp : td.expires_at < now1) :
    (launch_tool h store now1 token).1 = LaunchResult.expiredPage ∧
    lookupA (h token) (launch_tool h store now1 token).2 = none ∧
    (∀ now2 : Time,
      (launch_tool h (launch_tool h store now1 token).2 now2 token).1 =
        LaunchResult.invalidPage) := by
  have step1 : launch_tool h store now1 token =
      (LaunchResult.expiredPage, eraseA (h token) store) := by
    unfold launch_tool
    simp only [hlook]
    simp [if_pos hexp]
  have hgone : lookupA (h token) (launch_tool h store now1 token).2 = none := by
    rw [step1]
    exact lookupA_eraseA_self _ _
  refine ⟨by rw [step1], hgone, ?_⟩
  intro now2
  simp only [step1]
  have he : lookupA (h token) (eraseA (h token) store) = none := lookupA_eraseA_self _ _
  unfold launch_tool
  simp only [he]

/-- Witness for C3: a token already marked used and expired at time
1000 is consumed at time 2000: the expired page comes back (not the
already-used page), and a retry at time 3000 finds the entry deleted. -/
theorem claim_C3_expiry_precedes_used_witness :
    (launch_tool id [("tok", sampleTokenDataUsed)] 2000 "tok").1 =
      LaunchResult.expiredPage ∧
    (launch_tool id (launch_tool id [("tok", sampleTokenDataUsed)] 2000 "tok").2
        3000 "tok").1 = LaunchResult.invalidPage :=
  ⟨(claim_C3_expiry_precedes_used id [("tok", sampleTokenDataUsed)] "tok"
      sampleTokenDataUsed 2000 (by decide) (by decide)).1,
   (claim_C3_expiry_precedes_used id [("tok", sampleTokenDataUsed)] "tok"
      sampleTokenDataUsed 2000 (by decide) (by decide)).2.2 3000⟩

/-- Claim C2: on both issuance paths (request_tool_access and
start_gateway_session), a subject whose role is not Super Administrator
asking for an existing tool outside its allow-list is denied with
HTTP 403 and no grant is stored; a subject with the bypass role can
never receive a 403 from either path. -/
theorem claim_C2_allow_list_forbidden
    (db : Db) (user : CurrentUser) (tool_id : String) (tool : Tool)
    (now : Time) (tok : String) (h : String → String)
    (store : TokenStore) (gstore : GatewayStore)
    (sm : String → Option ToolCredentials)
    (hid : isValidObjectId tool_id = true)
    (huid : isValidObjectId user.id = true)
    (htool : db.tools tool_id = some tool) :
    (user.role ≠ some "Super Administrator" →
      tool_id ∉ allowedToolsOf db user →
      request_tool_access db user tool_id now tok h store =
        (.error ⟨403, "You do not have access to this tool"⟩, store) ∧
      start_gateway_session db sm user tool_id now tok h gstore =
        (.error ⟨403, "Access denied"⟩, gstore)) ∧
    (user.role = some "Super Administrator" →
      (∀ e, (request_tool_access db user tool_id now tok h store).1 = .error e →
        e.status ≠ 403) ∧
      (∀ e, (start_gateway_session db sm user tool_id now tok h gstore).1 = .error e →
        e.status ≠ 403)) := by
  constructor
  · intro hrole hmem
    constructor
    · unfold request_tool_access
      rw [if_neg (by simp [hid])]
      simp only [htool]
      rw [if_neg (by simp [huid])]
      rw [if_neg hrole]
      rw [if_pos (by simp [hmem])]
    · unfold start_gateway_session
      rw [if_neg (by simp [hid])]
      simp only [htool]
      rw [if_neg (by simp [huid])]
      rw [if_neg hrole]
      rw [if_pos (by simp [hmem])]
  · intro hrole
    constructor
    · intro e he
      unfold request_tool_access at he
      rw [if_neg (by simp [hid])] at he
      simp only [htool] at he
      rw [if_neg (by simp [hrole])] at he
      rw [if_pos hrole] at he
      rw [if_neg (by simp)] at he
      by_cases hurl : pyOrStr (tool.credentials.getD ⟨none, none, none, none⟩).login_url
          (tool.url.getD "#") = "" ∨
          pyOrStr (tool.credentials.getD ⟨none, none, none, none⟩).login_url
            (tool.url.getD "#") = "#"
      · rw [if_pos hurl] at he
        injection he with h1
        rw [← h1]
        decide
      · rw [if_neg hurl] at he
        simp at he
    · intro e he
      unfold start_gateway_session at he
      rw [if_neg (by simp [hid])] at he
      simp only [htool] at he
      rw [if_neg (by simp [hrole])] at he
      rw [if_pos hrole] at he
      rw [if_neg (by simp)] at he
      rcases hsm : sm (normalize_tool_name (tool.name.getD "")) with _ | creds
      · simp only [hsm] at he
        injection he with h1
        rw [← h1]
        decide
      · simp only [hsm] at he
        by_cases hurl : pyOrStr tool.url (tool.login_url.getD "") = ""
        · rw [if_pos hurl] at he
          injection he with h1
          rw [← h1]
          decide
        · rw [if_neg hurl] at he
          simp at he

/-- Witness for C2: the sample non-admin user (allow-list only tool
...01) requests tool ...03 and is denied with 403 by both paths, the
stores staying empty. -/
theorem claim_C2_allow_list_forbidden_witness :
    request_tool_access sampleDb sampleCurrentUser "5f0000000000000000000003" 0 "tok" id [] =
      (.error ⟨403, "You do not have access to this tool"⟩, []) ∧
    start_gateway_session sampleDb (fun _ => some sampleCreds) sampleCurrentUser
        "5f0000000000000000000003" 0 "tok" id [] =
      (.error ⟨403, "Access denied"⟩, []) :=
  (claim_C2_allow_list_forbidden sampleDb sampleCurrentUser "5f0000000000000000000003"
      sampleTool 0 "tok" id [] [] (fun _ => some sampleCreds)
      (by decide) (by decide) (by decide)).1 (by decide) (by decide)

/-- Counterexample to claim C4 as stated. First input: the final URL
`https://example.com/signin` keeps the host of the login URL
`https://example.com/login` and its path matches the login-page
heuristic, yet the code classifies the attempt as a success. Second
input: the final URL `https://sso.example.net/?next=https://example.com/login`
is on a different host, yet the code classifies the attempt as failed
because it embeds the login URL and the substring "login". -/
theorem claim_C4_counterexample :
    (specHost "https://example.com/signin" = specHost "https://example.com/login" ∧
     specLoginPageHeuristic (specPath "https://example.com/signin") = true ∧
     server_login_outcome "https://example.com/login" "https://example.com/signin" =
       LoginOutcome.ok "https://example.com/signin") ∧
    (specHost "https://sso.example.net/?next=https://example.com/login" ≠
       specHost "https://example.com/login" ∧
     server_login_outcome "https://example.com/login"
         "https://sso.example.net/?next=https://example.com/login" =
       LoginOutcome.failed "https://sso.example.net/?next=https://example.com/login") := by
  decide

/-- Claim C4, amended: the backend login is classified as failed
exactly when the lowercased final URL contains "login" and the final
URL contains the login URL verbatim as a substring; otherwise the
session is treated as successful and its cookies are captured. In
particular a final URL that does not embed the login URL (for example
a cross-host redirect that does not echo it) is always a success. -/
theorem claim_C4_login_classification (login_url final_url : String) :
    (server_login_outcome login_url final_url = LoginOutcome.failed final_url ↔
      (pyIn "login" (pyLower final_url) = true ∧ pyIn login_url final_url = true)) ∧
    (pyIn login_url final_url = false →
      server_login_outcome login_url final_url = LoginOutcome.ok final_url) := by
  constructor
  · unfold server_login_outcome
    by_cases h1 : (pyIn "login" (pyLower final_url) && pyIn login_url final_url) = true
    · rw [if_pos h1]
      simp only [Bool.and_eq_true] at h1
      simp [h1]
    · rw [if_neg h1]
      simp only [Bool.and_eq_true] at h1
      constructor
      · intro hcon
        exact absurd hcon (by simp)
      · intro hrhs
        exact absurd hrhs h1
  · intro h0
    unfold server_login_outcome
    rw [if_neg (by simp [h0])]

/-- Witness for the amended C4: a cross-host final URL that does not
embed the login URL is classified as a success. -/
theorem claim_C4_login_classification_witness :
    server_login_outcome "https://example.com/login" "https://app.example.net/home" =
      LoginOutcome.ok "https://app.example.net/home" :=
  (claim_C4_login_classification "https://example.com/login"
    "https://app.example.net/home").2 (by decide)

/-- Counterexample to claim C5 as stated: the sample user has IP
restriction enabled, no bypass role, and the CIDR range 10.0.0.0/16
assigned; the source IP 10.0.5.1 falls within that range, yet
check_ip_allowed denies it (the code compares against the string
prefix "10.0.0" regardless of the /16 length). -/
theorem claim_C5_counterexample :
    sampleUser.role ≠ some "Super Administrator" ∧
    sampleUser.ip_restriction_enabled = true ∧
    sampleUser.whitelisted_ips = ["10.0.0.0/16"] ∧
    specInCidr "10.0.5.1" "10.0.0.0/16" = true ∧
    check_ip_allowed sampleUser "10.0.5.1" [] = false := by
  decide

/-- Claim C5, amended: for a subject without the bypass role and with
IP restriction enabled, the check allows a source IP iff it equals an
entry of the subject whitelist, or appears in the global whitelist with
Active status, or some subject entry containing a slash has the source
IP start (as a string) with the entry base address minus its last
dot-separated component; the code approximates CIDR membership by this
string-prefix test, so true CIDR membership is neither necessary nor
sufficient. A subject with the bypass role always passes. -/
theorem claim_C5_ip_check_characterization (user : UserRecord) (client_ip : String)
    (wl : List IpWhitelistEntry) :
    check_ip_allowed user client_ip wl = true ↔
      (user.role = some "Super Administrator" ∨
       user.ip_restriction_enabled = false ∨
       client_ip ∈ user.whitelisted_ips ∨
       (∃ e ∈ wl, e.ip = client_ip ∧ e.status = "Active") ∨
       (∃ entry ∈ user.whitelisted_ips, pyIn "/" entry = true ∧
         pyStartsWith client_ip (cidrNetworkStr entry) = true)) := by
  unfold check_ip_allowed
  split_ifs with h1 h2 h3 h4
  · simp [h1]
  · simp [h2]
  · simp [h3]
  · simp only [List.any_eq_true, Bool.and_eq_true, decide_eq_true_eq] at h4
    constructor
    · intro _
      exact Or.inr (Or.inr (Or.inr (Or.inl h4)))
    · intro _
      rfl
  · simp only [List.any_eq_true, Bool.and_eq_true, decide_eq_true_eq] at h4 ⊢
    constructor
    · intro hc
      exact Or.inr (Or.inr (Or.inr (Or.inr hc)))
    · intro hc
      rcases hc with hc | hc | hc | hc | hc
      · exact absurd hc h1
      · exact absurd hc h2
      · exact absurd hc h3
      · exact absurd hc h4
      · exact hc

/-- Witness for the amended C5: the string-prefix heuristic admits
10.0.0.7 for the sample subject holding the entry 10.0.0.0/16. -/
theorem claim_C5_ip_check_characterization_witness :
    check_ip_allowed sampleUser "10.0.0.7" [] = true :=
  (claim_C5_ip_check_characterization sampleUser "10.0.0.7" []).mpr
    (Or.inr (Or.inr (Or.inr (Or.inr
      ⟨"10.0.0.0/16", by decide, by decide, by decide⟩))))

/-- Claim C6: for a tool whose credential record has an empty (or
missing) username or password, a successfully issued access token has
auto-login disabled and stores no credentials, and launching it within
its lifetime redirects to the login URL for direct manual navigation;
no launch of that token ever produces the credential-delivery page. -/
theorem claim_C6_not_configured_fallback
    (db : Db) (user : CurrentUser) (tool_id : String) (tool : Tool) (c : ToolCredentials)
    (now : Time) (tok : String) (h : String → String) (store : TokenStore)
    (resp : AccessResponse) (store' : TokenStore)
    (htool : db.tools tool_id = some tool)
    (hcred : tool.credentials = some c)
    (hempty : truthy c.username = false ∨ truthy c.password = false)
    (hreq : request_tool_access db user tool_id now tok h store = (.ok resp, store')) :
    resp.has_auto_login = false ∧
    (∀ now2 : Time, ¬ now + 300 < now2 →
      (launch_tool h store' now2 tok).1 = LaunchResult.redirect resp.login_url) ∧
    (∀ (now2 : Time) (u p lu : String) (tn : Option String),
      (launch_tool h store' now2 tok).1 ≠ LaunchResult.credentialPage u p lu tn) := by
  have hfalse : (truthy c.username && truthy c.password) = false := by
    rcases hempty with hx | hx <;> simp [hx]
  unfold request_tool_access at hreq
  by_cases hv : isValidObjectId tool_id = false
  · rw [if_pos hv] at hreq
    exact absurd hreq (by simp)
  · rw [if_neg hv] at hreq
    simp only [htool] at hreq
    by_cases h500 : user.role ≠ some "Super Administrator" ∧ isValidObjectId user.id = false
    · rw [if_pos h500] at hreq
      exact absurd hreq (by simp)
    · rw [if_neg h500] at hreq
      by_cases hallow : (if user.role = some "Super Administrator" then true
          else decide (tool_id ∈ allowedToolsOf db user)) = false
      · rw [if_pos hallow] at hreq
        exact absurd hreq (by simp)
      · rw [if_neg hallow] at hreq
        simp only [hcred, Option.getD_some] at hreq
        by_cases hurl : pyOrStr c.login_url (tool.url.getD "#") = "" ∨
            pyOrStr c.login_url (tool.url.getD "#") = "#"
        · rw [if_pos hurl] at hreq
          exact absurd hreq (by simp)
        · rw [if_neg hurl] at hreq
          simp only [hfalse, Bool.false_eq_true, if_false] at hreq
          have hresp : AccessResponse.mk tok ("/api/secure-access/launch/" ++ tok)
              tool.name false (pyOrStr c.login_url (tool.url.getD "#")) 300 = resp := by
            have hx := congrArg Prod.fst hreq
            simpa using hx
          have hstore : updateA (h tok)
              (TokenData.mk tool_id user.id user.email
                (pyOrStr c.login_url (tool.url.getD "#")) tool.name (tool.url.getD "#")
                false none (now + 300) false) store = store' :=
            congrArg Prod.snd hreq
          have hlook : lookupA (h tok) store' = some
              (TokenData.mk tool_id user.id user.email
                (pyOrStr c.login_url (tool.url.getD "#")) tool.name (tool.url.getD "#")
                false none (now + 300) false) := by
            rw [← hstore]
            exact lookupA_updateA_self _ _ _
          refine ⟨by rw [← hresp], ?_, ?_⟩
          · intro now2 hexp2
            unfold launch_tool
            simp only [hlook]
            rw [if_neg (by simpa using hexp2)]
            simp [← hresp]
          · intro now2 u p lu tn
            unfold launch_tool
            simp only [hlook]
            by_cases hlt : now + 300 < now2
            · rw [if_pos (by simpa using hlt)]
              simp
            · rw [if_neg (by simpa using hlt)]
              simp

/-- Witness for C6: the sample tool stores username "user" and an
empty password; the issued token, launched at time 10, redirects to
the login URL for manual navigation instead of delivering
credentials. -/
theorem claim_C6_not_configured_fallback_witness :
    (launch_tool id
        (request_tool_access sampleDbNoPw sampleCurrentUser "5f0000000000000000000001"
          0 "tok" id []).2 10 "tok").1 =
      LaunchResult.redirect "https://tool.example/login" := by
  have happ := claim_C6_not_configured_fallback sampleDbNoPw sampleCurrentUser
      "5f0000000000000000000001" sampleToolNoPw sampleCredsNoPw 0 "tok" id []
      (AccessResponse.mk "tok" "/api/secure-access/launch/tok" (some "Tool") false
        "https://tool.example/login" 300)
      [("tok", TokenData.mk "5f0000000000000000000001" "5f0000000000000000000002"
        "user@example.com" "https://tool.example/login" (some "Tool")
        "https://tool.example" false none 300 false)]
      (by decide) (by decide) (by decide) (by decide)
  have h2 := happ.2.1 10 (by decide)
  have hstore : (request_tool_access sampleDbNoPw sampleCurrentUser
      "5f0000000000000000000001" 0 "tok" id []).2 =
      [("tok", TokenData.mk "5f0000000000000000000001" "5f0000000000000000000002"
        "user@example.com" "https://tool.example/login" (some "Tool")
        "https://tool.example" false none 300 false)] := by decide
  rw [hstore]
  simpa using h2

/-- Claim C7: a decrypt request whose declared origin is not in the
trusted allow-list is answered with the origin error and never with
the decrypted plaintext, whatever the payload content and expiry. -/
theorem claim_C7_untrusted_origin_never_plaintext
    (trusted : List String) (origin : Option String)
    (payload : ExtensionPayload) (now : Time)
    (horigin : originAllowed trusted origin = false) :
    decrypt_payload trusted origin payload now = DecryptResult.originNotAllowed ∧
    (∀ u p : String, decrypt_payload trusted origin payload now ≠ DecryptResult.ok u p) := by
  have e : decrypt_payload trusted origin payload now = DecryptResult.originNotAllowed := by
    unfold decrypt_payload
    rw [if_pos horigin]
  refine ⟨e, fun u p => ?_⟩
  rw [e]
  simp

/-- Witness for C7: a valid, unexpired payload submitted from
`https://malicious-site.com` against the `chrome-extension://`
allow-list gets the origin error, not the plaintext. -/
theorem claim_C7_untrusted_origin_never_plaintext_witness :
    decrypt_payload ["chrome-extension://"] (some "https://malicious-site.com")
      ⟨"user", "pw", 120⟩ 0 = DecryptResult.originNotAllowed ∧
    decrypt_payload ["chrome-extension://"] (some "https://malicious-site.com")
      ⟨"user", "pw", 120⟩ 0 ≠ DecryptResult.ok "user" "pw" :=
  ⟨(claim_C7_untrusted_origin_never_plaintext ["chrome-extension://"]
      (some "https://malicious-site.com") ⟨"user", "pw", 120⟩ 0 (by decide)).1,
   (claim_C7_untrusted_origin_never_plaintext ["chrome-extension://"]
      (some "https://malicious-site.com") ⟨"user", "pw", 120⟩ 0 (by decide)).2 "user" "pw"⟩

/-- Every proxied request made before the session expiry is served, and
the session survives with its expiry unchanged (helper for C8). -/
theorem proxySeq_all_served (h : String → String) (token : String) (E : Time) :
    ∀ (reqs : List (Time × String)) (store : GatewayStore) (s : GatewaySession),
      lookupA (h token) store = some s → s.expires_at = E →
      (∀ r ∈ reqs, r.1 < E) →
      ((proxySeq h store token reqs).1.all ProxyResult.isServed) = true := by
  intro reqs
  induction reqs with
  | nil =>
    intro store s _ _ _
    rfl
  | cons q rest ih =>
    intro store s hlook hE hall
    obtain ⟨t, p⟩ := q
    have ht : t < E := hall (t, p) (by simp)
    have hstep : proxy_tool_request h store t token p =
        (ProxyResult.upstream s.base_url p,
         updateA (h token) { s with last_access := t } store) := by
      have hne : ¬ s.expires_at < t := by
        rw [hE]
        exact Nat.lt_asymm ht
      unfold proxy_tool_request
      simp only [hlook]
      rw [if_neg hne]
    show ((proxySeq h store token ((t, p) :: rest)).1.all ProxyResult.isServed) = true
    rw [proxySeq]
    simp only [hstep, List.all_cons]
    rw [Bool.and_eq_true]
    exact ⟨rfl, ih (updateA (h token) { s with last_access := t } store)
      { s with last_access := t } (lookupA_updateA_self _ _ _) (by simpa using hE)
      (fun r hr => hall r (by simp [hr]))⟩

/-- Claim C8: a gateway session left idle past the 30-minute TTL is
rejected with the 403 session-expired page on the next proxied request
(and on the gateway view) and is evicted from the session registry;
while now is before expires_at, the session serves any number of
proxied requests. -/
theorem claim_C8_gateway_session_expiry (h : String → String) (sm : String → Option ToolCredentials)
    (store : GatewayStore) (token : String) (s : GatewaySession)
    (hlook : lookupA (h token) store = some s)
    (httl : s.expires_at = s.created_at + SESSION_TIMEOUT)
    (hlast : s.created_at ≤ s.last_access) :
    (∀ (now : Time) (path : String), s.last_access + SESSION_TIMEOUT < now →
      proxy_tool_request h store now token path =
        (ProxyResult.expiredPage, eraseA (h token) store) ∧
      lookupA (h token) (eraseA (h token) store) = none ∧
      view_tool_gateway sm h store now token =
        (ViewResult.expiredPage, eraseA (h token) store)) ∧
    (∀ reqs : List (Time × String), (∀ r ∈ reqs, r.1 < s.expires_at) →
      ((proxySeq h store token reqs).1.all ProxyResult.isServed) = true) := by
  constructor
  · intro now path hidle
    have hexp : s.expires_at < now := by
      rw [httl]
      exact Nat.lt_of_le_of_lt (Nat.add_le_add_right hlast SESSION_TIMEOUT) hidle
    refine ⟨?_, lookupA_eraseA_self _ _, ?_⟩
    · unfold proxy_tool_request
      simp only [hlook]
      rw [if_pos hexp]
    · unfold view_tool_gateway
      simp only [hlook]
      rw [if_pos hexp]
  · intro reqs hall
    exact proxySeq_all_served h token s.expires_at reqs store s hlook rfl hall

/-- Witness for C8: the sample session (created at 0, TTL 1800) idle
until second 1860 gets the expired page and is evicted; two requests at
seconds 100 and 200 are both served. -/
theorem claim_C8_gateway_session_expiry_witness :
    proxy_tool_request id [("tok", sampleSession)] 1860 "tok" "home" =
      (ProxyResult.expiredPage, []) ∧
    ((proxySeq id [("tok", sampleSession)] "tok" [(100, "a"), (200, "b")]).1.all
      ProxyResult.isServed) = true := by
  have happ := claim_C8_gateway_session_expiry id (fun _ => some sampleCreds)
    [("tok", sampleSession)] "tok" sampleSession (by decide) (by decide) (by decide)
  refine ⟨?_, happ.2 [(100, "a"), (200, "b")] (by decide)⟩
  have h1 := (happ.1 1860 "home" (by decide)).1
  rw [h1]
  decide

/-- Claim C10: updating an existing tool as Super Administrator with
the credentials field omitted rewrites only name, category,
description, icon and url and leaves the stored credentials (and every
other stored field) unchanged; when a credentials object is supplied it
replaces the stored one; other tools are untouched. -/
theorem claim_C10_update_tool_frame
    (tools : ToolsDb) (user : CurrentUser) (tool_id : String)
    (payload : ToolUpdatePayload) (tool : Tool)
    (hrole : user.role = some "Super Administrator")
    (hid : isValidObjectId tool_id = true)
    (htool : tools tool_id = some tool) :
    ((payload.credentials = none →
      (update_tool tools user tool_id payload).2 tool_id = some
        (Tool.mk (some payload.name) (some payload.category) (some payload.description)
          (some payload.icon) (some payload.url) tool.login_url tool.credentials)) ∧
     (∀ c, payload.credentials = some c →
      (update_tool tools user tool_id payload).2 tool_id = some
        (Tool.mk (some payload.name) (some payload.category) (some payload.description)
          (some payload.icon) (some payload.url) tool.login_url (some c))) ∧
     (∀ k, k ≠ tool_id → (update_tool tools user tool_id payload).2 k = tools k)) := by
  have e : (update_tool tools user tool_id payload).2 = fun k =>
      if k = tool_id then some
        (Tool.mk (some payload.name) (some payload.category) (some payload.description)
          (some payload.icon) (some payload.url) tool.login_url
          (match payload.credentials with
           | some c => some c
           | none => tool.credentials))
      else tools k := by
    unfold update_tool
    rw [if_neg (by simp [hrole]), if_neg (by simp [hid])]
    simp only [htool]
  refine ⟨?_, ?_, ?_⟩
  · intro hnone
    rw [e]
    simp [hnone]
  · intro c hsome
    rw [e]
    simp [hsome]
  · intro k hk
    rw [e]
    simp [hk]

/-- Witness for C10: updating the sample tool with no credentials
object changes the listed fields and keeps the stored credentials. -/
theorem claim_C10_update_tool_frame_witness :
    (update_tool sampleDb.tools sampleSuperUser "5f0000000000000000000001"
        (ToolUpdatePayload.mk "NewName" "Cat" "Desc" "Icon" "https://new.example" none)).2
      "5f0000000000000000000001" = some
      (Tool.mk (some "NewName") (some "Cat") (some "Desc") (some "Icon")
        (some "https://new.example") none (some sampleCreds)) := by
  have happ := (claim_C10_update_tool_frame sampleDb.tools sampleSuperUser
      "5f0000000000000000000001"
      (ToolUpdatePayload.mk "NewName" "Cat" "Desc" "Icon" "https://new.example" none)
      sampleTool (by decide) (by decide) (by decide)).1 rfl
  rw [happ]
  decide

/-- Claim C9: for every credential string whose code points are Unicode
scalar values (what python `str.encode` accepts), decrypting the
encryption of the string gives back the string, for any cipher
satisfying the documented Fernet contract. -/
theorem claim_C9_encrypt_decrypt_roundtrip (F : FernetLike) (x : PyStr)
    (hx : ∀ c ∈ x, validCodePoint c) :
    ∃ t, encrypt_credential F x = some t ∧ decrypt_credential F t = some x := by
  have hasc : ∀ b ∈ F.enc (utf8Encode x), b < 128 := F.enc_ascii _
  refine ⟨F.enc (utf8Encode x), ?_, ?_⟩
  · show utf8Decode (F.enc (utf8Encode x)) = some (F.enc (utf8Encode x))
    exact utf8Decode_ascii _ hasc
  · unfold decrypt_credential
    rw [utf8Encode_ascii _ hasc, F.dec_enc]
    show utf8Decode (utf8Encode x) = some x
    refine utf8Decode_utf8Encode x (fun c hc => ?_)
    rcases hx c hc with hlt | ⟨_, hlt⟩ <;> omega

/-- Witness for C9: the string made of the code points of h, the
accented e and an emoji round-trips through the unary cipher. -/
theorem claim_C9_encrypt_decrypt_roundtrip_witness :
    decrypt_credential unaryFernet
      ((encrypt_credential unaryFernet [104, 233, 128512]).getD []) =
      some [104, 233, 128512] := by
  obtain ⟨t, h1, h2⟩ :=
    claim_C9_encrypt_decrypt_roundtrip unaryFernet [104, 233, 128512] (by decide)
  rw [h1]
  simpa using h2

end DsgBroker
